import Mathlib

/-!
Verification of the glslr-db water-level fetcher core.

The Python source (src/fetchers/chs.py, src/fetchers/noaa.py) is shallowly
embedded here:

* a pandas `Series` of water levels is a `List (Option ℚ)` in index order;
  `none` is the NaN sentinel produced by filtering,
* a single-column pandas `DataFrame` is a list of `(timestamp, value)` rows
  plus a column name (`Frame` below); timestamps are integer minutes,
* pandas NaN comparison semantics are reproduced explicitly: `NaN != x` is
  true, `NaN == x`, `NaN < x`, `NaN > x` are false,
* `float` arithmetic is modelled over `ℚ`; the one irrational quantity,
  the standard deviation, only ever occurs in comparisons of the form
  `x < mean + 4*std`, which are encoded equivalently and executably by
  comparing squares against `16 * variance`,
* stateful / effectful code (SOAP calls, module import) is modelled by
  explicit oracle records and `Except` for Python exceptions.
-/

set_option linter.unusedVariables false

/-- A Python exception, as far as the fetchers can observe one. -/
inductive PyErr where
  | valueError
  | typeError
  | netError
  | parseError
  deriving DecidableEq, Repr

instance {ε α : Type} [DecidableEq ε] [DecidableEq α] : DecidableEq (Except ε α) := fun a b =>
  match a, b with
  | .ok x, .ok y =>
    if h : x = y then .isTrue (by rw [h]) else .isFalse (by intro hc; cases hc; exact h rfl)
  | .error x, .error y =>
    if h : x = y then .isTrue (by rw [h]) else .isFalse (by intro hc; cases hc; exact h rfl)
  | .ok _, .error _ => .isFalse (by intro hc; cases hc)
  | .error _, .ok _ => .isFalse (by intro hc; cases hc)

/-- The `timestep` argument of the fetchers.  `other` stands for any string
other than the recognised ones (the provider-default 3-minute / 6-minute
timestep in chs.py / noaa.py). -/
inductive Timestep where
  | hourly
  | daily
  | min15
  | other
  deriving DecidableEq, Repr

/-! ## Pandas series primitives (src: pandas semantics used by chs.py) -/

/-- Values of a series that are available (non-NaN), in index order.
Models the skipna behaviour of pandas reductions. -/
def seriesVals (s : List (Option ℚ)) : List ℚ := s.filterMap id

/-- Pandas mean of a list of available values: NaN (`none`) on an empty list. -/
def pandasMean (l : List ℚ) : Option ℚ :=
  if l.length = 0 then none else some (l.sum / (l.length : ℚ))

/-- Pandas `timeseries.mean()`: mean over non-NaN entries, NaN if there are none. -/
def pandasMeanOpt (s : List (Option ℚ)) : Option ℚ := pandasMean (seriesVals s)

/-- The square of `timeseries.std()` (sample variance, pandas default
`ddof=1`): NaN unless at least two values are available.  `clean_CHS` only
ever uses the standard deviation inside comparisons against `mean ± 4*std`,
which are decided below by comparing squares against `16 *` this variance. -/
def pandasVarOpt (s : List (Option ℚ)) : Option ℚ :=
  let l := seriesVals s
  if 2 ≤ l.length then
    some ((l.map (fun x => (x - l.sum / (l.length : ℚ)) ^ 2)).sum / ((l.length : ℚ) - 1))
  else none

/-- Pandas `timeseries.diff(k)` at position `i`: `s[i] - s[i-k]`, NaN when `i < k`
or when either operand is NaN. -/
def pandasLagDiff (s : List (Option ℚ)) (k i : ℕ) : Option ℚ :=
  if i < k then none
  else
    match s.getD i none, s.getD (i - k) none with
    | some a, some b => some (a - b)
    | _, _ => none

/-- Pandas `s.where(cond, nan)`: keep entry `i` where `cond i` holds, else NaN. -/
def pandasWhere (s : List (Option ℚ)) (cond : ℕ → Bool) : List (Option ℚ) :=
  (List.range s.length).map (fun i => if cond i then s.getD i none else none)

/-! ## clean_CHS (src/fetchers/chs.py lines 40-70) -/

/-- Condition `timeseries.diff(k) != 0.0` at position `i`.  Pandas: NaN != 0.0 is True. -/
def lagDiffNeZero (s : List (Option ℚ)) (k i : ℕ) : Bool :=
  match pandasLagDiff s k i with
  | some d => decide (d ≠ 0)
  | none => true

/-- First masking pass of `clean_CHS` (chs.py lines 49-52):
`timeseries.where(cond1 & cond2, nan)` with `cond1 = diff(1) != 0` and
`cond2 = diff(2) != 0`.  An entry survives iff both lag differences are
nonzero (or NaN); it is nulled as soon as either lag difference is zero. -/
def chsRepeatedPass (s : List (Option ℚ)) : List (Option ℚ) :=
  pandasWhere s (fun i => lagDiffNeZero s 1 i && lagDiffNeZero s 2 i)

/-- Condition `timeseries.diff(1) < max_chg` at `i` (chs.py line 55); NaN < c is False. -/
def lagDiffLtMax (s : List (Option ℚ)) (i : ℕ) : Bool :=
  match pandasLagDiff s 1 i with
  | some d => decide (d < 5 / 2)
  | none => false

/-- Condition `timeseries.diff(1) > -max_chg` at `i` (chs.py line 56). -/
def lagDiffGtNegMax (s : List (Option ℚ)) (i : ℕ) : Bool :=
  match pandasLagDiff s 1 i with
  | some d => decide (-(5 / 2) < d)
  | none => false

/-- Second masking pass (chs.py line 55): null where the one-step increase
is not `< 2.5`.  Note the diff of the first entry is NaN, and `NaN < 2.5`
is False in pandas, so the first entry is always nulled by this pass. -/
def chsJumpHiPass (s : List (Option ℚ)) : List (Option ℚ) :=
  pandasWhere s (fun i => lagDiffLtMax s i)

/-- Third masking pass (chs.py line 56): null where the one-step decrease
is not `> -2.5`.  The diff here is taken on the output of the second pass. -/
def chsJumpLoPass (s : List (Option ℚ)) : List (Option ℚ) :=
  pandasWhere s (fun i => lagDiffGtNegMax s i)

/-- Comparison `x < mean + 4*std` with `std = Real.sqrt var`, encoded executably:
for `x ≥ mean` both sides are nonnegative so squares compare equivalently;
NaN mean/var/x make the comparison False (pandas). -/
def ltMeanPlus4Std (mo vo x : Option ℚ) : Bool :=
  match x, mo, vo with
  | some x, some m, some v => decide (x < m) || decide ((x - m) ^ 2 < 16 * v)
  | _, _, _ => false

/-- Comparison `x > mean - 4*std`, encoded like `ltMeanPlus4Std`. -/
def gtMeanMinus4Std (mo vo x : Option ℚ) : Bool :=
  match x, mo, vo with
  | some x, some m, some v => decide (m < x) || decide ((m - x) ^ 2 < 16 * v)
  | _, _, _ => false

/-- Fourth masking pass (chs.py line 64): `where(timeseries < mean+4*stdev)`. -/
def chsBandHiPass (mo vo : Option ℚ) (s : List (Option ℚ)) : List (Option ℚ) :=
  pandasWhere s (fun i => ltMeanPlus4Std mo vo (s.getD i none))

/-- Fifth masking pass (chs.py line 65): `where(timeseries > mean-4*stdev)`. -/
def chsBandLoPass (mo vo : Option ℚ) (s : List (Option ℚ)) : List (Option ℚ) :=
  pandasWhere s (fun i => gtMeanMinus4Std mo vo (s.getD i none))

/-- Function `clean_CHS` (chs.py lines 40-70): mean and (squared) standard deviation
are computed on the raw input series, then the five masking passes run
sequentially, each diffing the output of the previous one.  The bare
`except` branch of the source cannot fire in this pure model: every pass is
total. -/
def clean_CHS (timeseries : List (Option ℚ)) : List (Option ℚ) :=
  let mo := pandasMeanOpt timeseries
  let vo := pandasVarOpt timeseries
  chsBandLoPass mo vo
    (chsBandHiPass mo vo
      (chsJumpLoPass (chsJumpHiPass (chsRepeatedPass timeseries))))

/-! ## numpy.around and resampling primitives -/

/-- Round a rational to the nearest integer, ties to even (IEEE / numpy
`around` tie-breaking). -/
def roundHalfEven (x : ℚ) : ℤ :=
  let f := ⌊x⌋
  let r := x - (f : ℚ)
  if r < 1 / 2 then f
  else if 1 / 2 < r then f + 1
  else if f % 2 = 0 then f else f + 1

/-- Numpy `around(x, 2)`: round to 2 decimal places, ties to even. -/
def round2 (x : ℚ) : ℚ := (roundHalfEven (x * 100) : ℚ) / 100

/-- First non-NaN entry of a bucket, in row order (`GroupBy.first`
semantics); NaN when the bucket has no available value. -/
def firstSome : List (Option ℚ) → Option ℚ
  | [] => none
  | some a :: _ => some a
  | none :: rest => firstSome rest

/-- Pandas `df.resample(...).first()` for a bucket width `w` (minutes): the output
index runs over every bucket from the first to the last one present in the
input (pandas fills interior gaps), the bucket label is the bucket start
`w * key`, and the value is the first available observation of the bucket. -/
def resampleFirst (w : ℤ) (rows : List (ℤ × Option ℚ)) : List (ℤ × Option ℚ) :=
  let keys := rows.map (fun p => p.1 / w)
  match keys.min?, keys.max? with
  | some k0, some k1 =>
    (List.range ((k1 - k0).toNat + 1)).map
      (fun j : ℕ =>
        (w * (k0 + (j : ℤ)),
         firstSome ((rows.filter (fun p => p.1 / w == k0 + (j : ℤ))).map Prod.snd)))
  | _, _ => []

/-! ## resample_chs (src/fetchers/chs.py lines 73-122) -/

/-- The available (non-NaN) values of the calendar day `d` of a frame,
in row order: the inputs to both `df.resample("D").count()` and
`df.resample("D").mean()` for that day.  Timestamps are minutes, a day is
1440 minutes, and `/` on ℤ is floor division (the divisor is positive). -/
def chsDayVals (rows : List (ℤ × Option ℚ)) (d : ℤ) : List ℚ :=
  (rows.filter (fun p => p.1 / 1440 == d)).filterMap Prod.snd

/-- The day keys of `df.resample("D")`: every calendar day from the first
to the last one present (empty days included, as pandas does). -/
def chsDayKeys (rows : List (ℤ × Option ℚ)) : List ℤ :=
  let ds := rows.map (fun p => p.1 / 1440)
  match ds.min?, ds.max? with
  | some d0, some d1 => (List.range ((d1 - d0).toNat + 1)).map (fun j : ℕ => d0 + (j : ℤ))
  | _, _ => []

/-- The `daily` branch of `resample_chs` (chs.py lines 95-117): the daily
mean is kept only where `resample("D").count() >= 18` (the
`min_num_hrs_mask`), days failing the mask become NaN via `df[mask]`, and
`numpy.around(_, 2)` rounds the surviving means.  The day index entry is
the day-bucket start timestamp (midnight). -/
def resample_chs_daily (rows : List (ℤ × Option ℚ)) : List (ℤ × Option ℚ) :=
  (chsDayKeys rows).map
    (fun d =>
      (1440 * d,
       (if 18 ≤ (chsDayVals rows d).length then pandasMean (chsDayVals rows d)
        else none).map round2))

/-- Function `resample_chs` (chs.py lines 73-122): `hourly` takes the first
observation of each hourly bucket, `daily` is `resample_chs_daily`, any
other timestep returns the data as-is. -/
def resample_chs (rows : List (ℤ × Option ℚ)) : Timestep → List (ℤ × Option ℚ)
  | .hourly => resampleFirst 60 rows
  | .daily => resample_chs_daily rows
  | _ => rows

/-! ## resample_noaa (src/fetchers/noaa.py lines 11-36) -/

/-- Pandas `df.shift(-1)`: each row keeps its index and takes the value of the
next row; the last row becomes NaN. -/
def shiftNeg1 : List (ℤ × Option ℚ) → List (ℤ × Option ℚ)
  | [] => []
  | [p] => [(p.1, none)]
  | p :: q :: rest => (p.1, q.2) :: shiftNeg1 (q :: rest)

/-- The contribution of calendar day `d` after the shift: the available
values of `df.shift(-1)` whose (original) index lies in day `d`. -/
def noaaShiftDayVals (hourly : List (ℤ × Option ℚ)) (d : ℤ) : List ℚ :=
  ((shiftNeg1 hourly).filter (fun p => p.1 / 1440 == d)).filterMap Prod.snd

/-- Expression `around(df.shift(-1).groupby(df.index.date).mean(), 2)` (noaa.py line
23).  The group keys are the distinct calendar days of the hourly index
(ascending, as the hourly index is an ascending grid); the output is
indexed by day number. -/
def noaaDailyMeans (hourly : List (ℤ × Option ℚ)) : List (ℤ × Option ℚ) :=
  ((hourly.map (fun p => p.1 / 1440)).dedup).map
    (fun d => (d, (pandasMean (noaaShiftDayVals hourly d)).map round2))

/-- Function `resample_noaa` (noaa.py lines 11-36).  `hourly` and `daily` both first
resample to hourly buckets; `daily` additionally shifts back one bucket,
averages by calendar day, rounds, and drops every day from `today` on via
`df.loc[:yesterday]` (`d ≤ today - 1` over ℤ, i.e. `d + 1 ≤ today`).
`today` is the `date.today()` day number at call time.  Any other timestep
returns the data as-is. -/
def resample_noaa (rows : List (ℤ × Option ℚ)) (timestep : Timestep) (today : ℤ) :
    List (ℤ × Option ℚ) :=
  match timestep with
  | .hourly => resampleFirst 60 rows
  | .daily =>
    (noaaDailyMeans (resampleFirst 60 rows)).filter (fun p => decide (p.1 + 1 ≤ today))
  | _ => rows

/-! ## Time normalizer (src/fetchers/chs.py lines 6-37) -/

/-- A Python `datetime`: wall-clock value in minutes, plus optional
timezone info (`none` = naive; `some o` = aware with UTC offset `o`,
`some 0` = UTC). -/
structure PyDateTime where
  wall : ℤ
  tz : Option ℤ
  deriving DecidableEq, Repr

/-- Constant `EST_OFFSET = timedelta(hours=-5)` (chs.py line 7), in minutes. -/
def EST_OFFSET : ℤ := -300

/-- Function `convert_to_utc` (chs.py lines 9-37).  `utcOffset` is the module-level
`UTC_OFFSET = datetime.utcnow() - datetime.now()`, computed once at import
(see `importChsFetchers`).  A naive datetime is shifted by that constant
and stays naive; an aware datetime keeps its wall-clock value and has its
timezone replaced by UTC (`replace(tzinfo=timezone.utc)`). -/
def convert_to_utc (utcOffset : ℤ) (dt : PyDateTime) : PyDateTime :=
  match dt.tz with
  | none => { dt with wall := dt.wall + utcOffset }
  | some _ => { dt with tz := some 0 }

/-! ## Frames and the CHS fetch (src/fetchers/chs.py lines 125-326) -/

/-- A single-column pandas DataFrame: the column name and the
`(timestamp, value)` rows in index order. -/
structure Frame where
  name : String
  rows : List (ℤ × Option ℚ)
  deriving DecidableEq, Repr

/-- Pandas `df.at[t, col] = v`: overwrite the row of an existing index label,
or append a new row at the end. -/
def insertAt (df : List (ℤ × Option ℚ)) (t : ℤ) (v : Option ℚ) : List (ℤ × Option ℚ) :=
  if df.any (fun p => p.1 == t) then df.map (fun p => if p.1 == t then (t, v) else p)
  else df ++ [(t, v)]

/-- One record of the CHS SOAP `search` response: the `boundaryDate.max`
timestamp (UTC minutes; the `%Y-%m-%d %H:%M:00` format has no seconds) and
the water-level value after the `pd.to_numeric(errors='coerce')` pass. -/
structure ChsRecord where
  t : ℤ
  v : Option ℚ
  deriving DecidableEq, Repr

/-- The CHS side of the world: the module `UTC_OFFSET`, the outcome of
`chs_wsdl()` (its station id list; a raised exception models a network
failure), and the `soap_client.service.search` call as a function of the
`dateMin`/`dateMax` window (all other parameters are fixed constants in
the source). -/
structure ChsEnv where
  utcOffset : ℤ
  wsdl : Except PyErr (List String)
  search : ℤ → ℤ → Except PyErr (List ChsRecord)

/-- The timestamp-grid filter applied per record inside the fetch loop
(chs.py lines 259-301): hourly and daily keep records whose minute is 00
(the `':00:00' in boundaryDate` test), 15-min keeps minutes 00/15/30/45,
and the 3-minute default keeps everything. -/
def chsRecordOnGrid (timestep : Timestep) (t : ℤ) : Bool :=
  match timestep with
  | .hourly | .daily => t % 60 == 0
  | .min15 => t % 15 == 0
  | .other => true

/-- Insert a batch of fetched records into the frame rows (chs.py lines
257-305): records on the requested grid are stored at their Eastern
Standard time `observed_utc + EST_OFFSET`; `df.at` overwrites duplicates. -/
def chsInsertRecords (timestep : Timestep) (df : List (ℤ × Option ℚ))
    (recs : List ChsRecord) : List (ℤ × Option ℚ) :=
  recs.foldl
    (fun acc r => if chsRecordOnGrid timestep r.t then insertAt acc (r.t + EST_OFFSET) r.v else acc)
    df

/-- Number of iterations of the CHS fetch `while start_utc <= end_utc`
loop (chs.py line 240): the loop steps `start_utc` by one day (1440
minutes) per iteration. -/
def chsNumWindows (s e : ℤ) : ℕ :=
  if s ≤ e then (e - s).toNat / 1440 + 1 else 0

/-- The day-sized `(dateMin, dateMax)` query windows of the CHS fetch loop
(chs.py lines 240-249): iteration `k` queries from `s + 1440*k` to
`min(e, s + 1440*k + 1440)`. -/
def chsWindows (s e : ℤ) : List (ℤ × ℤ) :=
  (List.range (chsNumWindows s e)).map
    (fun k : ℕ => (s + 1440 * (k : ℤ), min e (s + 1440 * (k : ℤ) + 1440)))

/-- The fetch loop as the source runs it: fetch a window, insert its
records into the frame, continue with the next window; a raised exception
aborts the loop (and is caught further out). -/
def chsFetchLoop (search : ℤ → ℤ → Except PyErr (List ChsRecord)) (timestep : Timestep) :
    List (ℤ × ℤ) → List (ℤ × Option ℚ) → Except PyErr (List (ℤ × Option ℚ))
  | [], df => .ok df
  | w :: ws, df =>
    match search w.1 w.2 with
    | .error e => .error e
    | .ok recs => chsFetchLoop search timestep ws (chsInsertRecords timestep df recs)

/-- The raw-record collection of the Provider Adapter as the spec describes
it: query every window and concatenate the results. -/
def chsCollect (search : ℤ → ℤ → Except PyErr (List ChsRecord)) :
    List (ℤ × ℤ) → Except PyErr (List ChsRecord)
  | [] => .ok []
  | w :: ws =>
    match search w.1 w.2 with
    | .error e => .error e
    | .ok recs =>
      match chsCollect search ws with
      | .error e => .error e
      | .ok rest => .ok (recs ++ rest)

/-- The datum-correction step (chs.py lines 318-320): `if cd:` — only a
truthy `cd` (supplied and nonzero) renames the value column to `metres`
and adds `cd` to every value (NaN stays NaN). -/
def chsApplyCd (cd : Option ℚ) (f : Frame) : Frame :=
  match cd with
  | none => f
  | some c =>
    if c = 0 then f
    else { name := "metres", rows := f.rows.map (fun p => (p.1, p.2.map (· + c))) }

/-- The value rows computed inside the `try` of `fetch_chs_levels`
(chs.py lines 197-316), for naive `start`/`end` arguments (as the
orchestrator passes them): convert the bounds to UTC with the module
offset, extend the end by 24 h for a daily fetch, run the windowed fetch
loop, resample daily data, and slice `df[start:end]` (closed interval on
the original bounds). -/
def chsInnerRows (env : ChsEnv) (start endArg : ℤ) (timestep : Timestep) :
    Except PyErr (List (ℤ × Option ℚ)) :=
  let startUtc := (convert_to_utc env.utcOffset ⟨start, none⟩).wall
  let endUtc0 := (convert_to_utc env.utcOffset ⟨endArg, none⟩).wall
  let endUtc := if timestep = .daily then endUtc0 + 1440 else endUtc0
  match chsFetchLoop env.search timestep (chsWindows startUtc endUtc) [] with
  | .error e => .error e
  | .ok rows =>
    let rows1 := if timestep = .daily then resample_chs rows .daily else rows
    .ok (rows1.filter (fun p => decide (start ≤ p.1) && decide (p.1 ≤ endArg)))

/-- Everything inside the `try` of `fetch_chs_levels` (chs.py lines
197-320): the sliced rows in a frame whose column is the station id,
followed by the datum-correction step (chs.py lines 318-320). -/
def chsInner (env : ChsEnv) (stnID : String) (start endArg : ℤ) (timestep : Timestep)
    (cd : Option ℚ) : Except PyErr Frame :=
  match chsInnerRows env start endArg timestep with
  | .error e => .error e
  | .ok rows => .ok (chsApplyCd cd ⟨stnID, rows⟩)

/-- Function `fetch_chs_levels` (chs.py lines 155-326).  The station id must be a
string of length 5 or a `ValueError` is raised (the digits are not
checked); `chs_wsdl()` runs outside any handler, so its failure
propagates; a station missing from the station list yields `None`; and any
exception inside the retrieval `try` block is swallowed into `None`. -/
def fetch_chs_levels (env : ChsEnv) (stnID : String) (start endArg : ℤ)
    (timestep : Timestep) (cd : Option ℚ) : Except PyErr (Option Frame) :=
  if stnID.length ≠ 5 then .error .valueError
  else
    match env.wsdl with
    | .error e => .error e
    | .ok ids =>
      if stnID ∉ ids then .ok none
      else
        match chsInner env stnID start endArg timestep cd with
        | .ok f => .ok (some f)
        | .error _ => .ok none

/-- The CHS pipeline exactly as §2 of the spec words it, stage by stage:
Provider Adapter (windowed collection of raw records) → raw series → Time
Normalizer (grid filter and shift of each record to Eastern Standard time)
→ Quality Filter (`clean_CHS` on the value column, present only when
`withFilter` is true) → Resampler → stored series (slice and datum
correction).  `chsSpecPipeline true` is the flow the spec claims
`fetch_chs_levels` realizes; `chsSpecPipeline false` is the same flow with
no Quality Filter stage. -/
def chsSpecPipeline (withFilter : Bool) (env : ChsEnv) (stnID : String)
    (start endArg : ℤ) (timestep : Timestep) (cd : Option ℚ) : Except PyErr (Option Frame) :=
  if stnID.length ≠ 5 then .error .valueError
  else
    match env.wsdl with
    | .error e => .error e
    | .ok ids =>
      if stnID ∉ ids then .ok none
      else
        let startUtc := (convert_to_utc env.utcOffset ⟨start, none⟩).wall
        let endUtc0 := (convert_to_utc env.utcOffset ⟨endArg, none⟩).wall
        let endUtc := if timestep = .daily then endUtc0 + 1440 else endUtc0
        match chsCollect env.search (chsWindows startUtc endUtc) with
        | .error _ => .ok none
        | .ok recs =>
          let normalized := chsInsertRecords timestep [] recs
          let filtered :=
            if withFilter then
              (normalized.map Prod.fst).zip (clean_CHS (normalized.map Prod.snd))
            else normalized
          let resampled := if timestep = .daily then resample_chs filtered .daily else filtered
          let sliced := resampled.filter (fun p => decide (start ≤ p.1) && decide (p.1 ≤ endArg))
          .ok (some (chsApplyCd cd ⟨stnID, sliced⟩))

/-! ## The NOAA fetch (src/fetchers/noaa.py lines 39-107) -/

/-- One record of the NOAA `getWaterLevelRawSixMin` response: its
`timeStamp` (LST minutes) and `WL` value. -/
structure NoaaRecord where
  t : ℤ
  wl : Option ℚ
  deriving DecidableEq, Repr

/-- The NOAA side of the world: the `Client(NOAA_WSDL)` construction (which
may raise), the `getWaterLevelRawSixMin` call as a function of the
`beginDate`/`endDate` day numbers, and `date.today()` as seen by
`resample_noaa`. -/
structure NoaaEnv where
  client : Except PyErr Unit
  getData : ℤ → ℤ → Except PyErr (List NoaaRecord)
  today : ℤ

/-- Number of iterations of the NOAA `while start < end` loop (noaa.py
line 82): each iteration advances `start` by at most 30 days
(43200 minutes), always making progress. -/
def noaaNumWindows (s e : ℤ) : ℕ :=
  if s < e then (e - s - 1).toNat / 43200 + 1 else 0

/-- The 30-day query windows of the NOAA fetch loop (noaa.py lines
82-92): iteration `k` runs from `s + 43200*k` to
`min(s + 43200*(k+1), e)`. -/
def noaaWindows (s e : ℤ) : List (ℤ × ℤ) :=
  (List.range (noaaNumWindows s e)).map
    (fun k : ℕ => (s + 43200 * (k : ℤ), min (s + 43200 * ((k : ℤ) + 1)) e))

/-- The NOAA fetch loop: each window is queried with day-granularity
bounds (`strftime('%Y%m%d')`), the records are inserted with `df.at`, and
any raised exception propagates — noaa.py has no handler. -/
def noaaFetchLoop (getData : ℤ → ℤ → Except PyErr (List NoaaRecord)) :
    List (ℤ × ℤ) → List (ℤ × Option ℚ) → Except PyErr (List (ℤ × Option ℚ))
  | [], df => .ok df
  | w :: ws, df =>
    match getData (w.1 / 1440) (w.2 / 1440) with
    | .error e => .error e
    | .ok recs => noaaFetchLoop getData ws (recs.foldl (fun acc r => insertAt acc r.t r.wl) df)

/-- Function `fetch_noaa_levels` (noaa.py lines 39-107).  No station-id validation
of any kind is performed, and there is no `try`/`except`: an exception
raised by the client construction or by any window query propagates to the
caller. -/
def fetch_noaa_levels (env : NoaaEnv) (stnID : String) (start endArg : ℤ)
    (timestep : Timestep) : Except PyErr Frame :=
  match env.client with
  | .error e => .error e
  | .ok _ =>
    match noaaFetchLoop env.getData (noaaWindows start endArg) [] with
    | .error e => .error e
    | .ok rows => .ok ⟨stnID, resample_noaa rows timestep env.today⟩

/-! ## Module import state (Python default-argument semantics) -/

/-- What executing `import fetchers.chs` computes once, at import time:
the module constant `UTC_OFFSET = datetime.utcnow() - datetime.now()` and
the value of the default argument `end=datetime.utcnow()` of
`fetch_chs_levels`, both evaluated at the moment the `def` statement runs. -/
structure ChsModuleState where
  utcOffset : ℤ
  fetchEndDefault : ℤ

/-- Import `fetchers.chs` when the clock reads `utcnowAtImport` /
`nowAtImport`. -/
def importChsFetchers (utcnowAtImport nowAtImport : ℤ) : ChsModuleState :=
  { utcOffset := utcnowAtImport - nowAtImport, fetchEndDefault := utcnowAtImport }

/-- What executing `import fetchers.noaa` computes once: the value of the
default argument `end=datetime.now()` of `fetch_noaa_levels`. -/
structure NoaaModuleState where
  fetchEndDefault : ℤ

/-- Import `fetchers.noaa` when the local clock reads `nowAtImport`. -/
def importNoaaFetchers (nowAtImport : ℤ) : NoaaModuleState :=
  { fetchEndDefault := nowAtImport }

/-- A call of `fetch_chs_levels` at wall-clock time `callTimeUtcnow`.
Python evaluates default arguments at function definition time, so an
omitted `end` resolves to the module's frozen default, never to
`callTimeUtcnow`. -/
def callFetchChs (m : ChsModuleState) (env : ChsEnv) (callTimeUtcnow : ℤ) (stnID : String)
    (start : ℤ) (endArg : Option ℤ) (timestep : Timestep) (cd : Option ℚ) :
    Except PyErr (Option Frame) :=
  fetch_chs_levels env stnID start (endArg.getD m.fetchEndDefault) timestep cd

/-- A call of `fetch_noaa_levels` at local wall-clock time `callTimeNow`;
an omitted `end` resolves to the module's frozen default. -/
def callFetchNoaa (m : NoaaModuleState) (env : NoaaEnv) (callTimeNow : ℤ) (stnID : String)
    (start : ℤ) (endArg : Option ℤ) (timestep : Timestep) : Except PyErr Frame :=
  fetch_noaa_levels env stnID start (endArg.getD m.fetchEndDefault) timestep

/-! ## Spec-side characterization of the NOAA daily shift -/

/-- Modelled from the spec's wording of the Provider B daily rule: the
observations attributed to calendar day `d` are the hourly buckets from
hour 1 of day `d` (`1440*d + 60`) through hour 24 of day `d`
(`1440*(d+1)`, i.e. midnight of day `d+1`) — the provider convention the
spec describes.  The first bucket of the series is skipped (`drop 1`):
`shift(-1)` leaves no earlier slot for it to land in. -/
def noaaSpecDayVals (hourly : List (ℤ × Option ℚ)) (d : ℤ) : List ℚ :=
  ((hourly.drop 1).filter
      (fun p => decide (1440 * d + 60 ≤ p.1) && decide (p.1 ≤ 1440 * d + 1440))).filterMap
    Prod.snd

/-- Proof-side normal form of the hourly grid produced by
`resampleFirst 60`: bucket-start timestamps `t0, t0+60, t0+120, ...` with
bucket values `b 0, b 1, b 2, ...`. -/
def hourGrid : ℤ → ℕ → (ℕ → Option ℚ) → List (ℤ × Option ℚ)
  | _, 0, _ => []
  | t0, n + 1, b => (t0, b 0) :: hourGrid (t0 + 60) n (fun j => b (j + 1))

/-- The CHS window sequence written exactly as the source's
`while start_utc <= end_utc` loop (chs.py lines 240-307): emit the window
`(start_utc, min(end_utc, start_utc + 1 day))`, advance `start_utc` by one
day, repeat.  `chsWindows` is its closed form (proved equal below). -/
def chsWindowsLoop (s e : ℤ) : List (ℤ × ℤ) :=
  if s ≤ e then (s, min e (s + 1440)) :: chsWindowsLoop (s + 1440) e else []
termination_by (e + 1440 - s).toNat
decreasing_by omega

/-- The NOAA window sequence written exactly as the source's
`while start < end` loop (noaa.py lines 82-92): emit
`(start, fetch_end)` with `fetch_end = min(start + 30 days, end)`,
continue from `fetch_end`.  `noaaWindows` is its closed form (proved equal
below). -/
def noaaWindowsLoop (s e : ℤ) : List (ℤ × ℤ) :=
  if s < e then (s, min (s + 43200) e) :: noaaWindowsLoop (min (s + 43200) e) e else []
termination_by (e - s).toNat
decreasing_by omega

/-! ## Theorems -/

section Theorems

attribute [local semireducible] Rat.add Rat.sub Rat.mul Rat.inv

/-- Claim C2 (code bug).  The repeated-value pass of `clean_CHS` does NOT
null a value exactly when both lag differences are zero: the source keeps
a value when `cond1 AND cond2` holds (`diff(1) != 0` and `diff(2) != 0`),
hence nulls it as soon as EITHER lag difference is zero.  On the spec's
own series `[1.0, 1.0, 1.0, 1.0, 2.0]` the three entries at 0-based
positions 1, 2 and 3 are nulled, not exactly the two positions where both
lag differences are zero; and on `[1.0, 1.0, 2.0]` the middle entry, for
which only the one-step condition holds, is nulled rather than kept. -/
theorem chsRepeatedPass_nulls_single_lag_zero :
    chsRepeatedPass [some 1, some 1, some 1, some 1, some 2] =
      [some 1, none, none, none, some 2] ∧
    chsRepeatedPass [some 1, some 1, some 2] = [some 1, none, some 2] := by
  decide

/-- Claim C3 (code bug).  `clean_CHS` is not the identity on clean input:
on the strictly increasing series `[0.0, 1.0, 2.0]` (no repeats, steps of
1.0 < 2.5, all values well within 4 standard deviations of the mean) the
filter nulls the first two entries.  The jump-guard pass keeps an entry
only where `diff(1) < 2.5` holds, the first entry's diff is NaN and
`NaN < 2.5` is False, so the first entry is nulled; the next pass then
sees a NaN diff at the second entry and nulls it too. -/
theorem clean_CHS_not_identity_on_clean_input :
    clean_CHS [some 0, some 1, some 2] = [none, none, some 2] := by
  decide

/-- Claim C8 (confirmed).  `convert_to_utc` shifts a timezone-naive
datetime by the single module-level `UTC_OFFSET = utcnow - now` computed
at import time — the same constant for every wall-clock value converted —
and relabels an aware datetime as UTC with its wall-clock value unchanged
(no value conversion). -/
theorem convert_to_utc_spec :
    ∀ u n w : ℤ,
      convert_to_utc (importChsFetchers u n).utcOffset ⟨w, none⟩ = ⟨w + (u - n), none⟩ ∧
      ∀ z : ℤ, convert_to_utc (importChsFetchers u n).utcOffset ⟨w, some z⟩ = ⟨w, some 0⟩ := by
  intro u n w
  exact ⟨rfl, fun z => rfl⟩

/-- Claim C9 (confirmed).  The default `end` of both fetchers is the
single timestamp captured when the module was imported (Python evaluates
`end=datetime.utcnow()` / `end=datetime.now()` once, when the `def`
statement runs): two calls that omit `end`, made at different wall-clock
times `t1` and `t2`, fetch with the identical frozen end — the import-time
timestamp — not with the time of the call. -/
theorem fetch_default_end_frozen_at_import :
    ∀ (u n t1 t2 : ℤ) (env : ChsEnv) (stn : String) (s : ℤ) (ts : Timestep) (cd : Option ℚ)
      (nImp : ℤ) (nenv : NoaaEnv) (nstn : String) (ns : ℤ) (nts : Timestep),
      callFetchChs (importChsFetchers u n) env t1 stn s none ts cd =
          callFetchChs (importChsFetchers u n) env t2 stn s none ts cd ∧
      callFetchChs (importChsFetchers u n) env t1 stn s none ts cd =
          fetch_chs_levels env stn s u ts cd ∧
      callFetchNoaa (importNoaaFetchers nImp) nenv t1 nstn ns none nts =
          callFetchNoaa (importNoaaFetchers nImp) nenv t2 nstn ns none nts ∧
      callFetchNoaa (importNoaaFetchers nImp) nenv t1 nstn ns none nts =
          fetch_noaa_levels nenv nstn ns nImp nts := by
  intros
  exact ⟨rfl, rfl, rfl, rfl⟩


/-- Claim C6 (confirmed).  In the `daily` branch of `resample_chs` every
output row is a day bucket (indexed by the day's start, `1440 * d`); a day
with at least 18 available observations maps to the mean of that day's
available values rounded to 2 decimal places, and a day with 17 or fewer
maps to null.  Conversely every calendar day in the resampled range does
appear in the output, with exactly that value. -/
theorem resample_chs_daily_threshold :
    (∀ (rows : List (ℤ × Option ℚ)) (p : ℤ × Option ℚ),
      p ∈ resample_chs rows .daily →
      ∃ d : ℤ, p.1 = 1440 * d ∧
        (18 ≤ (chsDayVals rows d).length →
          p.2 = some (round2 ((chsDayVals rows d).sum / ((chsDayVals rows d).length : ℚ)))) ∧
        ((chsDayVals rows d).length ≤ 17 → p.2 = none)) ∧
    (∀ (rows : List (ℤ × Option ℚ)) (d : ℤ),
      d ∈ chsDayKeys rows →
      (1440 * d,
          (if 18 ≤ (chsDayVals rows d).length then pandasMean (chsDayVals rows d)
           else none).map round2) ∈
        resample_chs rows .daily) := by
  constructor
  · intro rows p hp
    simp only [resample_chs, resample_chs_daily, List.mem_map] at hp
    obtain ⟨d, hd, rfl⟩ := hp
    refine ⟨d, rfl, ?_, ?_⟩
    · intro h18
      have hne : ¬ (chsDayVals rows d).length = 0 := by omega
      simp [if_pos h18, pandasMean, hne]
    · intro h17
      have hlt : ¬ 18 ≤ (chsDayVals rows d).length := by omega
      simp [if_neg hlt]
  · intro rows d hd
    simp only [resample_chs, resample_chs_daily, List.mem_map]
    exact ⟨d, hd, rfl⟩

/-- Witness for C6: a day holding 18 hourly observations of value 2 is
kept with the rounded mean 2.00 (and, vacuously, would be nulled were its
count at most 17). -/
theorem resample_chs_daily_threshold_witness :
    ((0 : ℤ), some (2 : ℚ)) ∈
        resample_chs ((List.range 18).map (fun k => ((60 * k : ℤ), some (2 : ℚ)))) .daily ∧
    ∃ d : ℤ, (0 : ℤ) = 1440 * d ∧
      (18 ≤ (chsDayVals ((List.range 18).map (fun k => ((60 * k : ℤ), some (2 : ℚ)))) d).length →
        some (2 : ℚ) =
          some (round2
            ((chsDayVals ((List.range 18).map (fun k => ((60 * k : ℤ), some (2 : ℚ)))) d).sum /
              ((chsDayVals ((List.range 18).map (fun k => ((60 * k : ℤ), some (2 : ℚ)))) d).length :
                ℚ)))) ∧
      ((chsDayVals ((List.range 18).map (fun k => ((60 * k : ℤ), some (2 : ℚ)))) d).length ≤ 17 →
        some (2 : ℚ) = none) :=
  ⟨by decide,
   resample_chs_daily_threshold.1 ((List.range 18).map (fun k => ((60 * k : ℤ), some (2 : ℚ))))
     ((0 : ℤ), some (2 : ℚ)) (by decide)⟩


/-- Helper: once the station-list call `chs_wsdl()` has succeeded and the
station id has length 5, `fetch_chs_levels` cannot raise — everything
later lives inside the `try`, whose handler turns failures into `None`. -/
theorem fetchChs_ok_of_wsdl_ok (env : ChsEnv) (stn : String) (s e : ℤ) (ts : Timestep)
    (cd : Option ℚ) (ids : List String) (hw : env.wsdl = .ok ids) (h5 : stn.length = 5) :
    ∃ r, fetch_chs_levels env stn s e ts cd = .ok r := by
  by_cases hmem : stn ∈ ids
  · cases hinner : chsInner env stn s e ts cd with
    | ok f => exact ⟨some f, by simp [fetch_chs_levels, hw, h5, hmem, hinner]⟩
    | error er => exact ⟨none, by simp [fetch_chs_levels, hw, h5, hmem, hinner]⟩
  · exact ⟨none, by simp [fetch_chs_levels, hw, h5, hmem]⟩

/-- Helper: if every window query answers, the NOAA fetch loop returns. -/
theorem noaaFetchLoop_ok (g : ℤ → ℤ → Except PyErr (List NoaaRecord))
    (hg : ∀ a b, ∃ l, g a b = .ok l) :
    ∀ (ws : List (ℤ × ℤ)) (df : List (ℤ × Option ℚ)),
      ∃ rows, noaaFetchLoop g ws df = .ok rows := by
  intro ws
  induction ws with
  | nil => exact fun df => ⟨df, rfl⟩
  | cons w ws ih =>
    intro df
    obtain ⟨l, hl⟩ := hg (w.1 / 1440) (w.2 / 1440)
    obtain ⟨rows, hr⟩ := ih (l.foldl (fun acc r => insertAt acc r.t r.wl) df)
    exact ⟨rows, by simp [noaaFetchLoop, hl, hr]⟩

/-- Helper: against a benign environment (client constructs, every query
answers) `fetch_noaa_levels` returns a frame for any station id. -/
theorem fetchNoaa_ok_of_benign (env : NoaaEnv) (stn : String) (s e : ℤ) (ts : Timestep)
    (hc : env.client = .ok ()) (hg : ∀ a b, ∃ l, env.getData a b = .ok l) :
    ∃ f, fetch_noaa_levels env stn s e ts = .ok f := by
  obtain ⟨rows, hr⟩ := noaaFetchLoop_ok env.getData hg (noaaWindows s e) []
  exact ⟨⟨stn, resample_noaa rows ts env.today⟩, by simp [fetch_noaa_levels, hc, hr]⟩

/-- Claim C4 (corrected, amended form).  Exceptions raised inside the
retrieval `try` of `fetch_chs_levels` — anything after a successful
station-list call — are caught and become a null result, so with the
station-list call succeeding and a length-5 id the CHS fetch never raises;
but the station-list call `chs_wsdl()` itself runs before the `try` and
its exceptions propagate, and `fetch_noaa_levels` has no handler at all:
every exception it meets propagates to the caller. -/
theorem fetch_exception_policy_amended :
    (∀ (env : ChsEnv) (stn : String) (s e : ℤ) (ts : Timestep) (cd : Option ℚ)
        (ids : List String), env.wsdl = .ok ids → stn.length = 5 →
        ∃ r, fetch_chs_levels env stn s e ts cd = .ok r) ∧
    (∀ (env : NoaaEnv) (stn : String) (s e : ℤ) (ts : Timestep) (er : PyErr),
        env.client = .error er → fetch_noaa_levels env stn s e ts = .error er) := by
  constructor
  · intro env stn s e ts cd ids hw h5
    exact fetchChs_ok_of_wsdl_ok env stn s e ts cd ids hw h5
  · intro env stn s e ts er hc
    simp [fetch_noaa_levels, hc]

/-- Counterexample for C4 as stated: a network failure in `chs_wsdl()`
escapes `fetch_chs_levels` (despite a valid 5-character station id), and
both a client-construction failure and a mid-loop query failure escape
`fetch_noaa_levels` — none of them is converted to a null result. -/
theorem fetch_exception_propagation_cex :
    fetch_chs_levels ⟨0, .error .netError, fun _ _ => .ok []⟩ "12345" 0 0 .hourly none =
        .error .netError ∧
    fetch_noaa_levels ⟨.error .netError, fun _ _ => .ok [], 0⟩ "1234567" 0 0 .hourly =
        .error .netError ∧
    fetch_noaa_levels ⟨.ok (), fun _ _ => .error .parseError, 0⟩ "1234567" 0 60 .other =
        .error .parseError := by
  decide

/-- Witness for the amended C4 at concrete inputs. -/
theorem fetch_exception_policy_amended_witness :
    ((⟨0, .ok ["12345"], fun _ _ => .ok []⟩ : ChsEnv).wsdl = .ok ["12345"] ∧
      ("12345").length = 5 ∧
      ∃ r, fetch_chs_levels ⟨0, .ok ["12345"], fun _ _ => .ok []⟩ "12345" 0 0 .hourly none =
        .ok r) ∧
    ((⟨.error .typeError, fun _ _ => .ok [], 0⟩ : NoaaEnv).client = .error .typeError ∧
      fetch_noaa_levels ⟨.error .typeError, fun _ _ => .ok [], 0⟩ "1234567" 0 0 .daily =
        .error .typeError) :=
  ⟨⟨rfl, rfl,
    fetch_exception_policy_amended.1 ⟨0, .ok ["12345"], fun _ _ => .ok []⟩ "12345" 0 0 .hourly
      none ["12345"] rfl rfl⟩,
   ⟨rfl,
    fetch_exception_policy_amended.2 ⟨.error .typeError, fun _ _ => .ok [], 0⟩ "1234567" 0 0
      .daily .typeError rfl⟩⟩

/-- Claim C5 (corrected, amended form).  `fetch_chs_levels` validates only
that the station id is a string of length exactly 5, raising `ValueError`
for any other length; any length-5 string — digits or not — passes the
check and proceeds to the fetch.  `fetch_noaa_levels` performs no station
id validation whatsoever: against a benign environment it returns a frame
for every id shape. -/
theorem fetch_validation_amended :
    (∀ (env : ChsEnv) (stn : String) (s e : ℤ) (ts : Timestep) (cd : Option ℚ),
        stn.length ≠ 5 → fetch_chs_levels env stn s e ts cd = .error .valueError) ∧
    (∀ (env : ChsEnv) (stn : String) (s e : ℤ) (ts : Timestep) (cd : Option ℚ)
        (ids : List String), env.wsdl = .ok ids → stn.length = 5 →
        ∃ r, fetch_chs_levels env stn s e ts cd = .ok r) ∧
    (∀ (env : NoaaEnv) (stn : String) (s e : ℤ) (ts : Timestep),
        env.client = .ok () → (∀ a b, ∃ l, env.getData a b = .ok l) →
        ∃ f, fetch_noaa_levels env stn s e ts = .ok f) := by
  refine ⟨?_, ?_, ?_⟩
  · intro env stn s e ts cd h5
    simp [fetch_chs_levels, h5]
  · intro env stn s e ts cd ids hw h5
    exact fetchChs_ok_of_wsdl_ok env stn s e ts cd ids hw h5
  · intro env stn s e ts hc hg
    exact fetchNoaa_ok_of_benign env stn s e ts hc hg

/-- Counterexample for C5 as stated: the non-numeric id `"abcde"` (an
invalid shape — not 5 digits) does not raise in `fetch_chs_levels`, and
the 3-character id `"123"` (not 7 digits) does not raise in
`fetch_noaa_levels`; both calls return normally. -/
theorem fetch_validation_cex :
    fetch_chs_levels ⟨0, .ok ["11111"], fun _ _ => .ok []⟩ "abcde" 0 0 .hourly none =
        .ok none ∧
    fetch_noaa_levels ⟨.ok (), fun _ _ => .ok [], 0⟩ "123" 0 0 .hourly = .ok ⟨"123", []⟩ := by
  decide

/-- Witness for the amended C5 at concrete inputs. -/
theorem fetch_validation_amended_witness :
    (("123456").length ≠ 5 ∧
      fetch_chs_levels ⟨0, .ok [], fun _ _ => .ok []⟩ "123456" 0 0 .daily none =
        .error .valueError) ∧
    ((⟨0, .ok ["abcde"], fun _ _ => .ok []⟩ : ChsEnv).wsdl = .ok ["abcde"] ∧
      ("abcde").length = 5 ∧
      ∃ r, fetch_chs_levels ⟨0, .ok ["abcde"], fun _ _ => .ok []⟩ "abcde" 0 0 .hourly none =
        .ok r) ∧
    ((⟨.ok (), fun _ _ => .ok [], 0⟩ : NoaaEnv).client = .ok () ∧
      ∃ f, fetch_noaa_levels ⟨.ok (), fun _ _ => .ok [], 0⟩ "x" 0 0 .daily = .ok f) :=
  ⟨⟨by decide,
    fetch_validation_amended.1 ⟨0, .ok [], fun _ _ => .ok []⟩ "123456" 0 0 .daily none
      (by decide)⟩,
   ⟨rfl, rfl,
    fetch_validation_amended.2.1 ⟨0, .ok ["abcde"], fun _ _ => .ok []⟩ "abcde" 0 0 .hourly none
      ["abcde"] rfl rfl⟩,
   ⟨rfl,
    fetch_validation_amended.2.2 ⟨.ok (), fun _ _ => .ok [], 0⟩ "x" 0 0 .daily rfl
      (fun a b => ⟨[], rfl⟩)⟩⟩


/-- Helper: `if cd:` ignores an absent datum correction. -/
theorem chsApplyCd_none (f : Frame) : chsApplyCd none f = f := rfl

/-- Helper: `if cd:` also ignores the falsy correction `0.0`. -/
theorem chsApplyCd_zero (f : Frame) : chsApplyCd (some 0) f = f := by
  simp [chsApplyCd]

/-- Claim C10 (confirmed).  The datum correction of `fetch_chs_levels` is
truthiness-gated: a fetch with `cd = 0.0` is indistinguishable from a
fetch with `cd = None`; any frame returned by an uncorrected fetch keeps
the station id as its column name; and for any truthy `cd = c ≠ 0` the
fetch returns exactly the uncorrected result with the column renamed to
`metres` and `c` added to every value (after resampling and slicing). -/
theorem fetch_chs_datum_correction_truthiness :
    (∀ (env : ChsEnv) (stn : String) (s e : ℤ) (ts : Timestep),
        fetch_chs_levels env stn s e ts none = fetch_chs_levels env stn s e ts (some 0)) ∧
    (∀ (env : ChsEnv) (stn : String) (s e : ℤ) (ts : Timestep) (f : Frame),
        fetch_chs_levels env stn s e ts none = .ok (some f) → f.name = stn) ∧
    (∀ (env : ChsEnv) (stn : String) (s e : ℤ) (ts : Timestep) (c : ℚ), c ≠ 0 →
        fetch_chs_levels env stn s e ts (some c) =
          (fetch_chs_levels env stn s e ts none).map
            (Option.map (fun f =>
              ⟨"metres", f.rows.map (fun p => (p.1, p.2.map (· + c)))⟩))) := by
  refine ⟨?_, ?_, ?_⟩
  · intro env stn s e ts
    unfold fetch_chs_levels chsInner
    by_cases h5 : stn.length ≠ 5
    · simp [h5]
    · simp only [if_neg h5]
      cases env.wsdl with
      | error er => rfl
      | ok ids =>
        by_cases hmem : stn ∉ ids
        · simp [hmem]
        · simp only [if_neg hmem]
          cases chsInnerRows env s e ts with
          | error er => rfl
          | ok rows => simp [chsApplyCd_zero, chsApplyCd_none]
  · intro env stn s e ts f hf
    unfold fetch_chs_levels chsInner at hf
    by_cases h5 : stn.length ≠ 5
    · simp [h5] at hf
    · simp only [if_neg h5] at hf
      cases hw : env.wsdl with
      | error er => rw [hw] at hf; cases hf
      | ok ids =>
        rw [hw] at hf
        by_cases hmem : stn ∉ ids
        · simp [hmem] at hf
        · simp only [if_neg hmem] at hf
          cases hrows : chsInnerRows env s e ts with
          | error er => rw [hrows] at hf; cases hf
          | ok rows =>
            rw [hrows] at hf
            cases hf
            rfl
  · intro env stn s e ts c hc
    unfold fetch_chs_levels chsInner
    by_cases h5 : stn.length ≠ 5
    · simp [h5, Except.map]
    · simp only [if_neg h5]
      cases env.wsdl with
      | error er => simp [Except.map]
      | ok ids =>
        by_cases hmem : stn ∉ ids
        · simp [hmem, Except.map]
        · simp only [if_neg hmem]
          cases chsInnerRows env s e ts with
          | error er => simp [Except.map]
          | ok rows => simp [chsApplyCd, hc, Except.map]

/-- Witness for C10 at a concrete fetch: one hourly observation of 5
metres, datum correction 2 metres. -/
theorem fetch_chs_datum_correction_truthiness_witness :
    (fetch_chs_levels ⟨0, .ok ["11111"], fun _ _ => .ok [⟨600, some 5⟩]⟩ "11111" 0 1440 .hourly
        none =
      fetch_chs_levels ⟨0, .ok ["11111"], fun _ _ => .ok [⟨600, some 5⟩]⟩ "11111" 0 1440 .hourly
        (some 0)) ∧
    (fetch_chs_levels ⟨0, .ok ["11111"], fun _ _ => .ok [⟨600, some 5⟩]⟩ "11111" 0 1440 .hourly
          none =
        .ok (some ⟨"11111", [(300, some 5)]⟩) ∧
      (⟨"11111", [(300, some 5)]⟩ : Frame).name = "11111") ∧
    ((2 : ℚ) ≠ 0 ∧
      fetch_chs_levels ⟨0, .ok ["11111"], fun _ _ => .ok [⟨600, some 5⟩]⟩ "11111" 0 1440 .hourly
          (some 2) =
        (fetch_chs_levels ⟨0, .ok ["11111"], fun _ _ => .ok [⟨600, some 5⟩]⟩ "11111" 0 1440
              .hourly none).map
          (Option.map (fun f => ⟨"metres", f.rows.map (fun p => (p.1, p.2.map (· + 2)))⟩))) :=
  ⟨fetch_chs_datum_correction_truthiness.1 ⟨0, .ok ["11111"], fun _ _ => .ok [⟨600, some 5⟩]⟩
      "11111" 0 1440 .hourly,
   ⟨by decide,
    fetch_chs_datum_correction_truthiness.2.1 ⟨0, .ok ["11111"], fun _ _ => .ok [⟨600, some 5⟩]⟩
      "11111" 0 1440 .hourly ⟨"11111", [(300, some 5)]⟩ (by decide)⟩,
   ⟨by decide,
    fetch_chs_datum_correction_truthiness.2.2 ⟨0, .ok ["11111"], fun _ _ => .ok [⟨600, some 5⟩]⟩
      "11111" 0 1440 .hourly 2 (by decide)⟩⟩


/-- Helper: inserting a concatenation of record batches equals inserting
the batches in sequence (`df.at` is a left fold). -/
theorem chsInsertRecords_append (ts : Timestep) (df : List (ℤ × Option ℚ))
    (a b : List ChsRecord) :
    chsInsertRecords ts df (a ++ b) = chsInsertRecords ts (chsInsertRecords ts df a) b := by
  simp [chsInsertRecords, List.foldl_append]

/-- Helper (window stitching): the interleaved fetch-and-insert loop of
`fetch_chs_levels` computes the same frame as collecting every window's
records first and inserting them afterwards. -/
theorem chsFetchLoop_eq_collect (search : ℤ → ℤ → Except PyErr (List ChsRecord))
    (ts : Timestep) :
    ∀ (ws : List (ℤ × ℤ)) (df : List (ℤ × Option ℚ)),
      chsFetchLoop search ts ws df =
        (chsCollect search ws).map (fun recs => chsInsertRecords ts df recs) := by
  intro ws
  induction ws with
  | nil =>
    intro df
    simp [chsFetchLoop, chsCollect, chsInsertRecords, Except.map]
  | cons w ws ih =>
    intro df
    simp only [chsFetchLoop, chsCollect]
    cases search w.1 w.2 with
    | error e => simp [Except.map]
    | ok recs =>
      dsimp only
      rw [ih]
      cases chsCollect search ws with
      | error e => simp [Except.map]
      | ok rest => simp [Except.map, chsInsertRecords_append]

/-- Claim C1 (corrected, amended form).  For every environment, station,
range, timestep and datum correction, `fetch_chs_levels` equals the staged
pipeline Provider Adapter → raw series → Time Normalizer → Resampler →
stored series with NO Quality Filter stage: `clean_CHS` is defined in the
module but never invoked by the fetch, for any timestep. -/
theorem fetch_chs_eq_pipeline_without_filter :
    ∀ (env : ChsEnv) (stn : String) (s e : ℤ) (ts : Timestep) (cd : Option ℚ),
      fetch_chs_levels env stn s e ts cd = chsSpecPipeline false env stn s e ts cd := by
  intro env stn s e ts cd
  unfold fetch_chs_levels chsSpecPipeline chsInner chsInnerRows
  by_cases h5 : stn.length ≠ 5
  · simp [h5]
  · simp only [if_neg h5]
    cases env.wsdl with
    | error er => rfl
    | ok ids =>
      by_cases hmem : stn ∉ ids
      · simp [hmem]
      · simp only [if_neg hmem]
        rw [chsFetchLoop_eq_collect]
        cases chsCollect env.search
            (chsWindows ((convert_to_utc env.utcOffset ⟨s, none⟩).wall)
              (if ts = .daily then (convert_to_utc env.utcOffset ⟨e, none⟩).wall + 1440
               else (convert_to_utc env.utcOffset ⟨e, none⟩).wall)) with
        | error er => dsimp only; simp [Except.map]
        | ok recs => dsimp only; simp [Except.map]

/-- Counterexample for C1 as stated: on a concrete fetch whose upstream
returns three consecutive identical hourly readings, `fetch_chs_levels`
returns them untouched, while the spec's flow with the Quality Filter
stage between the Time Normalizer and the Resampler would null them — the
fetch does not realize the filtered pipeline. -/
theorem fetch_chs_skips_quality_filter_cex :
    fetch_chs_levels
        ⟨0, .ok ["11111"], fun _ _ => .ok [⟨600, some 5⟩, ⟨660, some 5⟩, ⟨720, some 5⟩]⟩
        "11111" 0 1440 .hourly none ≠
      chsSpecPipeline true
        ⟨0, .ok ["11111"], fun _ _ => .ok [⟨600, some 5⟩, ⟨660, some 5⟩, ⟨720, some 5⟩]⟩
        "11111" 0 1440 .hourly none := by
  decide


/-- Helper: a map over `List.range` in arithmetic progression is an
`hourGrid`. -/
theorem range_map_eq_hourGrid :
    ∀ (n : ℕ) (t0 : ℤ) (b : ℕ → Option ℚ),
      (List.range n).map (fun j : ℕ => (t0 + 60 * (j : ℤ), b j)) = hourGrid t0 n b := by
  intro n
  induction n with
  | zero => intro t0 b; rfl
  | succ n ih =>
    intro t0 b
    rw [List.range_succ_eq_map]
    simp only [List.map_cons, List.map_map, hourGrid]
    congr 1
    · norm_num
    · rw [← ih (t0 + 60) (fun j => b (j + 1))]
      refine List.map_congr_left ?_
      intro j hj
      simp only [Function.comp]
      congr 1
      push_cast
      ring

/-- Helper: the hourly resample is a contiguous hourly grid whose first
timestamp is a multiple of 60. -/
theorem resampleFirst_exists_hourGrid (rows : List (ℤ × Option ℚ)) :
    ∃ (t0 : ℤ) (n : ℕ) (b : ℕ → Option ℚ),
      60 ∣ t0 ∧ resampleFirst 60 rows = hourGrid t0 n b := by
  unfold resampleFirst
  cases h0 : (rows.map (fun p => p.1 / 60)).min? with
  | none => exact ⟨0, 0, fun _ => none, ⟨0, by ring⟩, by simp [h0, hourGrid]⟩
  | some k0 =>
    cases h1 : (rows.map (fun p => p.1 / 60)).max? with
    | none => exact ⟨0, 0, fun _ => none, ⟨0, by ring⟩, by simp [h0, h1, hourGrid]⟩
    | some k1 =>
      refine ⟨60 * k0, (k1 - k0).toNat + 1,
        fun j => firstSome ((rows.filter (fun p => p.1 / 60 == k0 + (j : ℤ))).map Prod.snd),
        ⟨k0, rfl⟩, ?_⟩
      simp only [h0, h1]
      rw [← range_map_eq_hourGrid]
      refine List.map_congr_left ?_
      intro j hj
      congr 1
      ring

/-- Helper (the heart of the Provider B daily rule): on an hourly grid,
grouping the `shift(-1)`ed series by the day of the original index
collects, for day `d`, exactly the original values of hourly buckets
`1440*d + 60` through `1440*(d+1)` — hour 1 of day `d` through hour 24 of
day `d`, i.e. midnight of day `d+1` — clipped to the grid and never
including the grid's first bucket. -/
theorem noaaShiftDayVals_eq_spec (d : ℤ) :
    ∀ (n : ℕ) (t0 : ℤ) (b : ℕ → Option ℚ), 60 ∣ t0 →
      noaaShiftDayVals (hourGrid t0 n b) d = noaaSpecDayVals (hourGrid t0 n b) d := by
  intro n
  induction n with
  | zero => intro t0 b hdvd; rfl
  | succ m ih =>
    intro t0 b hdvd
    cases m with
    | zero =>
      simp [hourGrid, shiftNeg1, noaaShiftDayVals, noaaSpecDayVals, List.filter_cons]
    | succ k =>
      have hd60 : (60 : ℤ) ∣ (t0 + 60) := by omega
      have hIH := ih (t0 + 60) (fun j => b (j + 1)) hd60
      have hguard : (t0 / 1440 == d)
          = (decide (1440 * d + 60 ≤ t0 + 60) && decide (t0 + 60 ≤ 1440 * d + 1440)) := by
        rw [Bool.eq_iff_iff]
        simp only [beq_iff_eq, Bool.and_eq_true, decide_eq_true_eq]
        constructor
        · intro h
          constructor <;> omega
        · intro h
          omega
      simp only [noaaShiftDayVals, noaaSpecDayVals] at hIH ⊢
      simp only [hourGrid, shiftNeg1, List.drop_succ_cons, List.drop_zero] at hIH ⊢
      rw [List.filter_cons, List.filter_cons, hguard]
      by_cases hcond :
          (decide (1440 * d + 60 ≤ t0 + 60) && decide (t0 + 60 ≤ 1440 * d + 1440)) = true
      · simp only [hcond, if_true, List.filterMap_cons]
        rw [hIH]
      · simp only [Bool.not_eq_true] at hcond
        simp only [hcond, Bool.false_eq_true, if_false]
        exact hIH

/-- Claim C7 (confirmed).  In the `daily` branch of `resample_noaa` every
output day `d` satisfies `d + 1 ≤ today` — the current calendar day (and
anything later) is always absent, however complete it is — and its value
is the rounded mean of the hourly values at buckets `1440*d + 60` through
`1440*(d+1)` of the hourly series: the value recorded at hour 24 of day
`d` (midnight of day `d+1`) contributes to day `d`, not to day `d+1`,
whose own window starts at `1440*(d+1) + 60`. -/
theorem resample_noaa_daily_shift :
    ∀ (rows : List (ℤ × Option ℚ)) (today : ℤ) (p : ℤ × Option ℚ),
      p ∈ resample_noaa rows .daily today →
      p.1 + 1 ≤ today ∧
      p.2 = (pandasMean (noaaSpecDayVals (resampleFirst 60 rows) p.1)).map round2 := by
  intro rows today p hp
  simp only [resample_noaa] at hp
  rw [List.mem_filter] at hp
  obtain ⟨hmem, hpred⟩ := hp
  simp only [decide_eq_true_eq] at hpred
  refine ⟨hpred, ?_⟩
  simp only [noaaDailyMeans, List.mem_map] at hmem
  obtain ⟨d, hd, heq⟩ := hmem
  cases heq
  obtain ⟨t0, n, b, hdvd, hgrid⟩ := resampleFirst_exists_hourGrid rows
  simp only [noaaShiftDayVals, noaaSpecDayVals]
  rw [hgrid]
  have := noaaShiftDayVals_eq_spec d n t0 b hdvd
  simp only [noaaShiftDayVals, noaaSpecDayVals] at this
  rw [this]

/-- Witness for C7: an hourly series carrying 1 at hour 23 of day 0 and 3
at hour 24 of day 0 (midnight of day 1); day 0's mean is 3 — the midnight
value — and day 1 is present with no contribution. -/
theorem resample_noaa_daily_shift_witness :
    ((0 : ℤ), some (3 : ℚ)) ∈
        resample_noaa [((1380 : ℤ), some (1 : ℚ)), (1440, some 3)] .daily 5 ∧
    (((0 : ℤ), some (3 : ℚ)).1 + 1 ≤ 5 ∧
      ((0 : ℤ), some (3 : ℚ)).2 =
        (pandasMean
            (noaaSpecDayVals (resampleFirst 60 [((1380 : ℤ), some (1 : ℚ)), (1440, some 3)])
              ((0 : ℤ), some (3 : ℚ)).1)).map
          round2) :=
  ⟨by decide,
   resample_noaa_daily_shift [((1380 : ℤ), some (1 : ℚ)), (1440, some 3)] 5 (0, some 3)
     (by decide)⟩


/-- Helper: the closed-form CHS window list is exactly what the source's
`while start_utc <= end_utc` loop produces (induction on the window
count). -/
theorem chsWindows_eq_loop_aux :
    ∀ (n : ℕ) (s e : ℤ), chsNumWindows s e = n → chsWindows s e = chsWindowsLoop s e := by
  intro n
  induction n with
  | zero =>
    intro s e hn
    have hse : ¬ s ≤ e := by
      by_contra h
      simp [chsNumWindows, h] at hn
    rw [chsWindowsLoop]
    simp [chsWindows, chsNumWindows, hse]
  | succ n ih =>
    intro s e hn
    have hse : s ≤ e := by
      by_contra h
      simp [chsNumWindows, h] at hn
    have hcount : (e - s).toNat / 1440 = n := by
      simp [chsNumWindows, hse] at hn
      omega
    rw [chsWindowsLoop, if_pos hse]
    have hnext : chsNumWindows (s + 1440) e = n := by
      simp only [chsNumWindows]
      by_cases h2 : s + 1440 ≤ e
      · rw [if_pos h2]
        omega
      · rw [if_neg h2]
        omega
    rw [← ih (s + 1440) e hnext]
    simp only [chsWindows, hn, hnext, List.range_succ_eq_map, List.map_cons, List.map_map]
    congr 1
    · norm_num
    · refine List.map_congr_left ?_
      intro k hk
      simp only [Function.comp]
      push_cast
      have h1 : s + 1440 * ((k : ℤ) + 1) = s + 1440 + 1440 * (k : ℤ) := by ring
      rw [h1]

/-- Helper: the closed-form NOAA window list is exactly what the source's
`while start < end` loop produces. -/
theorem noaaWindows_eq_loop_aux :
    ∀ (n : ℕ) (s e : ℤ), noaaNumWindows s e = n → noaaWindows s e = noaaWindowsLoop s e := by
  intro n
  induction n with
  | zero =>
    intro s e hn
    have hse : ¬ s < e := by
      by_contra h
      simp [noaaNumWindows, h] at hn
    rw [noaaWindowsLoop]
    simp [noaaWindows, noaaNumWindows, hse]
  | succ n ih =>
    intro s e hn
    have hse : s < e := by
      by_contra h
      simp [noaaNumWindows, h] at hn
    have hcount : (e - s - 1).toNat / 43200 = n := by
      simp [noaaNumWindows, hse] at hn
      omega
    rw [noaaWindowsLoop, if_pos hse]
    by_cases h2 : s + 43200 < e
    · have hmin : min (s + 43200) e = s + 43200 := by omega
      have hnext : noaaNumWindows (s + 43200) e = n := by
        simp only [noaaNumWindows, if_pos h2]
        omega
      rw [hmin, ← ih (s + 43200) e hnext]
      simp only [noaaWindows, hn, hnext, List.range_succ_eq_map, List.map_cons, List.map_map]
      congr 1
      · norm_num
        omega
      · refine List.map_congr_left ?_
        intro k hk
        simp only [Function.comp]
        push_cast
        have h1 : s + 43200 * ((k : ℤ) + 1) = s + 43200 + 43200 * (k : ℤ) := by ring
        have h3 : s + 43200 * ((k : ℤ) + 1 + 1) = s + 43200 + 43200 * ((k : ℤ) + 1) := by ring
        rw [h1, h3]
    · have hn0 : n = 0 := by omega
      subst hn0
      have hmin : min (s + 43200) e = e := by omega
      rw [hmin, noaaWindowsLoop]
      rw [if_neg (lt_irrefl e)]
      have hr : List.range 1 = [0] := rfl
      simp only [noaaWindows, hn, hr, List.map_cons, List.map_nil]
      norm_num
      omega

/-- Helper: the CHS fetch windows equal the literal while-loop windows. -/
theorem chsWindows_eq_loop (s e : ℤ) : chsWindows s e = chsWindowsLoop s e :=
  chsWindows_eq_loop_aux (chsNumWindows s e) s e rfl

/-- Helper: the NOAA fetch windows equal the literal while-loop windows. -/
theorem noaaWindows_eq_loop (s e : ℤ) : noaaWindows s e = noaaWindowsLoop s e :=
  noaaWindows_eq_loop_aux (noaaNumWindows s e) s e rfl

end Theorems
